import Mathlib

/-!
Verification of the social-media-sandbox simulation core.

This file gives a shallow embedding of the Rust sources under `src/` and
proves (or refutes) the frozen specification claims about them.

Modelling conventions, applied uniformly:
* `f32`/`f64` values are embedded as exact rationals (`ℚ`); the spec's
  "within floating tolerance" statements become exact equalities.
* `usize`/`u32` identifiers become `Nat`; `i32`/`i64` counters and
  timestamps become `Int` (no overflow is relevant to any claim).
* `HashMap` fields become association lists; iteration order is fixed by
  the list, which only ever feeds order-insensitive folds (sums) or
  explicit sorts in the claims below.
* A Rust panic (`unwrap` on `None`, `unimplemented!`, `gen_range` on an
  empty range) is embedded as `Option.none`: a panicking function returns
  `Option α` and `none` means the process aborts with no recoverable
  error value.
* The transcendental `f32` primitives `exp` and `sqrt` are abstracted as
  explicit function parameters `fexp` and `fsqrt`; every theorem below
  quantifies over them or instantiates them concretely, and no claim here
  depends on their analytic properties.
* The ambient clock `chrono::Utc::now()` and the thread-local RNG are
  passed in explicitly (`now : Int`, `Rng`), mirroring the effect each
  call site performs.
-/

/-- From `src/models/interest.rs` (`Topic`, duplicated verbatim in
`src/models/agents/common.rs`): a weighted interest plus an agreement
scalar. -/
structure Topic where
  weighted_interest : ℚ
  agreement : ℚ
deriving Repr, DecidableEq

/-- From `src/models/interest.rs` (`InterestProfile`): a tag-to-topic map
(embedded as an association list), a cached total weight, and the dense
vector representation (`nalgebra::DVector<f32>` embedded as `List ℚ`). -/
structure InterestProfile where
  interests : List (String × Topic)
  total_weight : ℚ
  vector_representation : List ℚ
deriving Repr, DecidableEq

namespace InterestProfile

/-- `InterestProfile::new(dimension_size)`: empty map, zero total weight,
all-zero vector of the given dimension. -/
def new (dimension_size : Nat) : InterestProfile :=
  { interests := []
    total_weight := 0
    vector_representation := List.replicate dimension_size 0 }

/-- Sum of the `weighted_interest` values of an interests map, the value
the source computes with `self.interests.values().map(..).sum()`. -/
def sumWeights (l : List (String × Topic)) : ℚ :=
  (l.map (fun x => x.2.weighted_interest)).sum

/-- `InterestProfile::normalise_weights` from `src/models/interest.rs`
lines 77-93: store the recomputed total in `total_weight`; if it is zero,
return; otherwise divide every weight by the total and set `total_weight`
to 1.  Note that the source never reads or writes
`vector_representation` here (it has no access to the engine's
tag-to-index table). -/
def normalise_weights (p : InterestProfile) : InterestProfile :=
  let total := sumWeights p.interests
  if total = 0 then { p with total_weight := total }
  else
    { p with
        interests := p.interests.map
          (fun x => (x.1, { x.2 with weighted_interest := x.2.weighted_interest / total }))
        total_weight := 1 }

end InterestProfile

/-- Helper: the sum of a list after dividing every element by `t`. -/
theorem list_sum_map_div (l : List ℚ) (t : ℚ) :
    (l.map (fun x => x / t)).sum = l.sum / t := by
  induction l with
  | nil => simp
  | cons a as ih => simp [ih, add_div]

theorem sumWeights_normalised (l : List (String × Topic)) (t : ℚ) :
    InterestProfile.sumWeights
      (l.map (fun x => (x.1, { x.2 with weighted_interest := x.2.weighted_interest / t })))
      = InterestProfile.sumWeights l / t := by
  unfold InterestProfile.sumWeights
  rw [← list_sum_map_div]
  congr 1
  rw [List.map_map, List.map_map]
  rfl

/-- C7 — After `normalise_weights`: if the weights had a nonzero sum they
now sum to exactly 1 (exact rational arithmetic); if they summed to zero
(in particular for the empty profile) the interests map and the vector
representation are left unchanged and the recomputed `total_weight` cache
is 0 (for every profile the program constructs — whose cached total is
already the recomputed sum — this is the identity, and for the empty
profile the whole record is returned unchanged). -/
theorem normalise_weights_sum (p : InterestProfile) :
    (InterestProfile.sumWeights p.interests ≠ 0 →
      InterestProfile.sumWeights (p.normalise_weights).interests = 1) ∧
    (InterestProfile.sumWeights p.interests = 0 →
      (p.normalise_weights).interests = p.interests ∧
      (p.normalise_weights).vector_representation = p.vector_representation ∧
      (p.normalise_weights).total_weight = 0) ∧
    (p.interests = [] → p.total_weight = 0 → p.normalise_weights = p) := by
  refine ⟨fun hne => ?_, fun hz => ?_, fun hnil htw => ?_⟩
  · unfold InterestProfile.normalise_weights
    simp only [if_neg hne]
    rw [sumWeights_normalised, div_self hne]
  · unfold InterestProfile.normalise_weights
    simp [hz]
  · have hz : InterestProfile.sumWeights p.interests = 0 := by
      simp [hnil, InterestProfile.sumWeights]
    unfold InterestProfile.normalise_weights
    simp only [hz, if_pos rfl]
    cases p
    simp_all

/-- Witness for C7: a concrete two-tag profile with weights 2 and 2 (the
spec's §8 scenario) normalises to sum 1, and the empty profile is a
no-op. -/
theorem normalise_weights_sum_witness :
    (InterestProfile.sumWeights
        [("a", ⟨2, 0⟩), ("b", ⟨2, 0⟩)] ≠ 0 ∧
      InterestProfile.sumWeights
        (InterestProfile.normalise_weights
          ⟨[("a", ⟨2, 0⟩), ("b", ⟨2, 0⟩)], 0, [0, 0]⟩).interests = 1) ∧
    (InterestProfile.new 2).normalise_weights = InterestProfile.new 2 := by
  constructor
  · constructor
    · norm_num [InterestProfile.sumWeights]
    · exact (normalise_weights_sum ⟨[("a", ⟨2, 0⟩), ("b", ⟨2, 0⟩)], 0, [0, 0]⟩).1
        (by norm_num [InterestProfile.sumWeights])
  · exact ((normalise_weights_sum (InterestProfile.new 2)).2.2) rfl rfl

/-- C1 — the code never rebuilds `vector_representation`:
`normalise_weights` leaves the vector exactly as it was, for every
profile.  In particular, for the concrete profile holding the single tag
`"a"` with raw weight 2 and a dimension-1 all-zero vector (with the
global table mapping `"a"` to index 0), the normalized weight of `"a"`
is 1 but the vector entry at index 0 stays 0, where the claim requires it
to become 1. -/
theorem normalise_weights_vector_unchanged :
    (∀ p : InterestProfile,
      (p.normalise_weights).vector_representation = p.vector_representation) ∧
    (InterestProfile.normalise_weights ⟨[("a", ⟨2, 0⟩)], 0, [0]⟩).interests
      = [("a", ⟨1, 0⟩)] ∧
    (InterestProfile.normalise_weights ⟨[("a", ⟨2, 0⟩)], 0, [0]⟩).vector_representation
      = [0] := by
  refine ⟨fun p => ?_,
    by norm_num [InterestProfile.normalise_weights, InterestProfile.sumWeights],
    by norm_num [InterestProfile.normalise_weights, InterestProfile.sumWeights]⟩
  unfold InterestProfile.normalise_weights
  dsimp only
  split <;> rfl

/-- From spec §3 and `src/models/content.rs`: a comment on a post.
`Modelled from the spec:` the `Comment` consumed by
`src/engine/recommendation.rs` (sorted by its `engagement_score`, spec
§3 lists the field) — the `content.rs` iteration of the struct omits
`engagement_score`, but every claim below cites the engine's usage. -/
structure Comment where
  id : Nat
  commentor_id : Nat
  timestamp : Int
  interest_profile : InterestProfile
  length : Int
  engagement_score : ℚ
deriving Repr, DecidableEq

/-- `Modelled from the spec:` the `Post` type referenced throughout
`src/` (`crate::models::Post`) is not declared under `src/`; spec §3
gives its shape, which matches every field access the engine and agents
perform: `{ id, creator_id, timestamp, interest_profile, length,
readers, comments, engagement_score }`. -/
structure Post where
  id : Nat
  creator_id : Nat
  timestamp : Int
  interest_profile : InterestProfile
  length : Int
  readers : List Nat
  comments : List Comment
  engagement_score : ℚ
deriving Repr, DecidableEq

/-- `content.rs` names the same record `Content`. -/
abbrev Content := Post

namespace Content

/-- `Content::new` from `src/models/content.rs` lines 21-37.  The random
id, ambient timestamp, and random length are passed explicitly (they come
from `thread_rng`, `chrono::Utc::now()` and `random::<f32>()` at the call
site); every other field is as the source writes it — in particular
`engagement_score` starts at `0.0` and `readers`/`comments` start
empty. -/
def new (creator_id : Nat) (interest_profile : InterestProfile)
    (id : Nat) (timestamp : Int) (length : Int) : Content :=
  { id := id
    creator_id := creator_id
    timestamp := timestamp
    interest_profile := interest_profile
    length := length
    readers := []
    comments := []
    engagement_score := 0 }

/-- `Content::increase_engagement` from `src/models/content.rs` lines
39-41: `self.engagement_score += 1.0`. -/
def increase_engagement (c : Content) : Content :=
  { c with engagement_score := c.engagement_score + 1 }

end Content

/-- `RecommendationEngineConfig` from `src/engine/recommendation.rs`
lines 16-22. -/
structure RecommendationEngineConfig where
  interest_weight : ℚ
  recency_weight : ℚ
  engagement_weight : ℚ
  recency_decay_rate : ℚ
deriving Repr, DecidableEq

/-- `RecommendationEngine` from `src/engine/recommendation.rs` lines
7-14. -/
structure RecommendationEngine where
  tag_to_index : List (String × Nat)
  index_to_tag : List (Nat × String)
  content_pool : List Post
  vector_dimension : Nat
  config : RecommendationEngineConfig
deriving Repr, DecidableEq

/-- Rust `f32::clamp(lo, hi)`. -/
def clamp (x lo hi : ℚ) : ℚ :=
  if x < lo then lo else if x > hi then hi else x

/-- `nalgebra` dot product of two dense vectors. -/
def listDot (v1 v2 : List ℚ) : ℚ :=
  (List.zipWith (fun a b => a * b) v1 v2).sum

/-- Sum of squares, the radicand of `nalgebra`'s `norm`. -/
def sumSquares (v : List ℚ) : ℚ :=
  (v.map (fun x => x * x)).sum

/-- Insertion of one ranked element: `gt x y` means `x` must come
strictly before `y`; equal elements keep their original relative order,
matching Rust's stable `sort_by`. -/
def rankInsert {α : Type} (gt : α → α → Bool) (x : α) : List α → List α
  | [] => [x]
  | y :: ys => if gt x y then x :: y :: ys else y :: rankInsert gt x ys

/-- Stable sort by the strict comparator `gt` (embedding of Vec::sort_by
with the comparators used in `recommendation.rs`; all of them are total
on exact rationals, so the `partial_cmp(..).unwrap()` there cannot
panic in this model). -/
def rankSort {α : Type} (gt : α → α → Bool) : List α → List α
  | [] => []
  | x :: xs => rankInsert gt x (rankSort gt xs)

theorem mem_rankInsert {α : Type} (gt : α → α → Bool) (x a : α) (l : List α) :
    a ∈ rankInsert gt x l ↔ a = x ∨ a ∈ l := by
  induction l with
  | nil => simp [rankInsert]
  | cons y ys ih =>
    by_cases h : gt x y = true
    · simp [rankInsert, h]
    · simp only [rankInsert, if_neg h, List.mem_cons, ih]
      tauto

theorem mem_rankSort {α : Type} (gt : α → α → Bool) (a : α) (l : List α) :
    a ∈ rankSort gt l ↔ a ∈ l := by
  induction l with
  | nil => simp [rankSort]
  | cons x xs ih => simp [rankSort, mem_rankInsert, ih]

namespace RecommendationEngine

/-- `RecommendationEngine::new` (lines 25-38): empty tag tables, empty
pool, dimension 100, default weights 0.5/0.3/0.2 and decay rate 0.05. -/
def new : RecommendationEngine :=
  { tag_to_index := []
    index_to_tag := []
    content_pool := []
    vector_dimension := 100
    config :=
      { interest_weight := 1/2
        recency_weight := 3/10
        engagement_weight := 1/5
        recency_decay_rate := 1/20 } }

/-- `get_content_by_id` (lines 40-42): first pool entry with the id. -/
def get_content_by_id (e : RecommendationEngine) (content_id : Nat) : Option Post :=
  e.content_pool.find? (fun c => c.id == content_id)

/-- `calculate_vector_similarity` (lines 74-84), with `fsqrt` standing
for the `f32` square root inside `nalgebra`'s `norm`: cosine similarity
clamped to `[0,1]`, and 0 when either magnitude is zero. -/
def calculate_vector_similarity (fsqrt : ℚ → ℚ) (vec1 vec2 : List ℚ) : ℚ :=
  let dot_product := listDot vec1 vec2
  let magnitude1 := fsqrt (sumSquares vec1)
  let magnitude2 := fsqrt (sumSquares vec2)
  if magnitude1 = 0 ∨ magnitude2 = 0 then 0
  else clamp (dot_product / (magnitude1 * magnitude2)) 0 1

end RecommendationEngine

/-- The recency factor of `calculate_content_score` (lines 62-63 of
`recommendation.rs`), with `fexp` standing for `f32::exp`:
`hours_old = (current_time - timestamp) / 3600.0` and
`recency_score = exp(-0.05 * hours_old)`.  The `0.05` is a literal in
the source (`// Decay by ~5% per hour`); the configured
`recency_decay_rate` does not appear. -/
def recency_score (fexp : ℚ → ℚ) (timestamp current_time : Int) : ℚ :=
  let hours_old : ℚ := ((current_time - timestamp : Int) : ℚ) / 3600
  fexp (-(1/20) * hours_old)

namespace RecommendationEngine

/-- `calculate_content_score` (lines 51-72): weighted sum of cosine
alignment, recency and raw `engagement_score` (the source comment says
"Assuming this is already normalized 0.0-1.0" but consumes the field
unscaled), clamped to `[0,1]`. -/
def calculate_content_score (fexp fsqrt : ℚ → ℚ) (e : RecommendationEngine)
    (post : Post) (agent_interest_profile : InterestProfile)
    (current_time : Int) : ℚ :=
  let interest_alignment := calculate_vector_similarity fsqrt
    agent_interest_profile.vector_representation
    post.interest_profile.vector_representation
  let recency := recency_score fexp post.timestamp current_time
  let engagement_score := post.engagement_score
  clamp (interest_alignment * e.config.interest_weight
    + recency * e.config.recency_weight
    + engagement_score * e.config.engagement_weight) 0 1

/-- `get_post_recommendations` (lines 86-110): score every non-viewed
post, sort descending by score, return the first `count` ids. -/
def get_post_recommendations (fexp fsqrt : ℚ → ℚ) (e : RecommendationEngine)
    (interest_profile : InterestProfile) (viewed_posts : List Nat)
    (count : Nat) (current_time : Int) : List Nat :=
  let scored_posts :=
    (e.content_pool.filter (fun c => !viewed_posts.contains c.id)).map
      (fun c => (c.id, calculate_content_score fexp fsqrt e c interest_profile current_time))
  let sorted := rankSort (fun a b => decide (b.2 < a.2)) scored_posts
  (sorted.take count).map Prod.fst

/-- `get_comment_recommendations` (lines 112-131): `None` when the post
id does not resolve; otherwise the post's comments minus the
already-seen ids, sorted descending by engagement, truncated to
`count`. -/
def get_comment_recommendations (e : RecommendationEngine) (post_id : Nat)
    (current_comment_ids : List Nat) (count : Nat) : Option (List Comment) :=
  (e.get_content_by_id post_id).map (fun post =>
    let comments := post.comments.filter (fun c => !current_comment_ids.contains c.id)
    let sorted := rankSort (fun a b => decide (b.engagement_score < a.engagement_score)) comments
    sorted.take count)

end RecommendationEngine

/-- The in-place mutation inside `increase_engagement_score`:
`content_pool.iter_mut().find(|c| c.id == content_id)` bumps the first
matching entry; `none` embeds the `unwrap` panic when there is none. -/
def bumpFirst (content_id : Nat) : List Post → Option (List Post)
  | [] => none
  | c :: rest =>
    if c.id = content_id then some (Content.increase_engagement c :: rest)
    else (bumpFirst content_id rest).map (fun l => c :: l)

/-- The in-place mutation inside `add_comment_to_post`: push the comment
onto the first matching post; `none` embeds the `unwrap` panic. -/
def pushCommentFirst (post_id : Nat) (comment : Comment) : List Post → Option (List Post)
  | [] => none
  | c :: rest =>
    if c.id = post_id then some ({ c with comments := c.comments ++ [comment] } :: rest)
    else (pushCommentFirst post_id comment rest).map (fun l => c :: l)

namespace RecommendationEngine

/-- `increase_engagement_score` (lines 133-141).  The source signature
returns `()` and reaches the content through
`find(..).unwrap()`: there is no error channel, and a missing id panics
(embedded as `none`). -/
def increase_engagement_score (e : RecommendationEngine) (content_id : Nat) :
    Option RecommendationEngine :=
  (bumpFirst content_id e.content_pool).map
    (fun pool => { e with content_pool := pool })

/-- `add_comment_to_post` (lines 143-151), same `unwrap` shape. -/
def add_comment_to_post (e : RecommendationEngine) (post_id : Nat)
    (comment : Comment) : Option RecommendationEngine :=
  (pushCommentFirst post_id comment e.content_pool).map
    (fun pool => { e with content_pool := pool })

/-- `create_post` (lines 153-155): append to the pool. -/
def create_post (e : RecommendationEngine) (post : Post) : RecommendationEngine :=
  { e with content_pool := e.content_pool ++ [post] }

end RecommendationEngine

/-- A one-post engine used by concrete witnesses below: the pool holds a
single fresh post with id 1, creator 3, timestamp 0, length 10. -/
def samplePost : Post := Content.new 3 (InterestProfile.new 2) 1 0 10

def sampleEngine : RecommendationEngine :=
  { RecommendationEngine.new with content_pool := [samplePost] }

theorem bumpFirst_eq_none (content_id : Nat) (l : List Post) :
    bumpFirst content_id l = none ↔ ∀ c ∈ l, c.id ≠ content_id := by
  induction l with
  | nil => simp [bumpFirst]
  | cons c rest ih =>
    by_cases h : c.id = content_id
    · simp [bumpFirst, h]
    · simp [bumpFirst, h, ih]

theorem pushCommentFirst_eq_none (post_id : Nat) (cm : Comment) (l : List Post) :
    pushCommentFirst post_id cm l = none ↔ ∀ c ∈ l, c.id ≠ post_id := by
  induction l with
  | nil => simp [pushCommentFirst]
  | cons c rest ih =>
    by_cases h : c.id = post_id
    · simp [pushCommentFirst, h]
    · simp [pushCommentFirst, h, ih]

theorem bumpFirst_split (content_id : Nat) (l1 : List Post) (c : Post) (l2 : List Post)
    (h1 : ∀ x ∈ l1, x.id ≠ content_id) (hc : c.id = content_id) :
    bumpFirst content_id (l1 ++ c :: l2)
      = some (l1 ++ Content.increase_engagement c :: l2) := by
  induction l1 with
  | nil => simp [bumpFirst, hc]
  | cons x xs ih =>
    have hx : x.id ≠ content_id := h1 x (by simp)
    have ihh := ih (fun y hy => h1 y (by simp [hy]))
    simp only [List.cons_append, bumpFirst, if_neg hx, List.append_eq, ihh]
    rfl

theorem pushCommentFirst_split (post_id : Nat) (cm : Comment) (l1 : List Post)
    (c : Post) (l2 : List Post)
    (h1 : ∀ x ∈ l1, x.id ≠ post_id) (hc : c.id = post_id) :
    pushCommentFirst post_id cm (l1 ++ c :: l2)
      = some (l1 ++ { c with comments := c.comments ++ [cm] } :: l2) := by
  induction l1 with
  | nil => simp [pushCommentFirst, hc]
  | cons x xs ih =>
    have hx : x.id ≠ post_id := h1 x (by simp)
    have ihh := ih (fun y hy => h1 y (by simp [hy]))
    simp only [List.cons_append, pushCommentFirst, if_neg hx, List.append_eq, ihh]
    rfl

theorem bumpFirst_forall2 (content_id : Nat) (l l' : List Post)
    (h : bumpFirst content_id l = some l') :
    List.Forall₂ (fun c c' : Post =>
      c'.engagement_score = c.engagement_score ∨
      c'.engagement_score = c.engagement_score + 1) l l' := by
  induction l generalizing l' with
  | nil => simp [bumpFirst] at h
  | cons c rest ih =>
    by_cases hid : c.id = content_id
    · simp only [bumpFirst, if_pos hid, Option.some_inj] at h
      subst h
      exact List.Forall₂.cons (Or.inr rfl)
        (List.forall₂_same.mpr (fun x _ => Or.inl rfl))
    · simp only [bumpFirst, if_neg hid] at h
      obtain ⟨l'', hl'', rfl⟩ := Option.map_eq_some'.mp h
      exact List.Forall₂.cons (Or.inl rfl) (ih l'' hl'')

theorem pushCommentFirst_forall2 (post_id : Nat) (cm : Comment) (l l' : List Post)
    (h : pushCommentFirst post_id cm l = some l') :
    List.Forall₂ (fun c c' : Post =>
      c'.engagement_score = c.engagement_score) l l' := by
  induction l generalizing l' with
  | nil => simp [pushCommentFirst] at h
  | cons c rest ih =>
    by_cases hid : c.id = post_id
    · simp only [pushCommentFirst, if_pos hid, Option.some_inj] at h
      subst h
      exact List.Forall₂.cons rfl (List.forall₂_same.mpr (fun x _ => rfl))
    · simp only [pushCommentFirst, if_neg hid] at h
      obtain ⟨l'', hl'', rfl⟩ := Option.map_eq_some'.mp h
      exact List.Forall₂.cons rfl (ih l'' hl'')

/-- C3 counterexample — on an engine whose pool does not contain the id
(here: the freshly constructed empty engine and id 7), both
`increase_engagement_score` and `add_comment_to_post` evaluate to `none`,
the embedding of the `unwrap` panic: the process aborts.  The Rust
signatures return `()`, so there is no "not found" error value a caller
could handle, contrary to the claim. -/
theorem engine_mutators_panic_counterexample :
    RecommendationEngine.increase_engagement_score RecommendationEngine.new 7 = none ∧
    RecommendationEngine.add_comment_to_post RecommendationEngine.new 7
      ⟨0, 0, 0, InterestProfile.new 0, 0, 0⟩ = none :=
  ⟨rfl, rfl⟩

/-- C3 amended — for every content id absent from the pool,
`increase_engagement_score` and `add_comment_to_post` panic (`unwrap` on
`None`, embedded as `none`) instead of returning a handleable error;
when the id is present, `increase_engagement_score` adds exactly 1.0 to
the engagement of the first matching pool entry and leaves every other
entry untouched, and `add_comment_to_post` appends the comment to the
first matching entry. -/
theorem engine_mutators_panic_or_increment (e : RecommendationEngine) (content_id : Nat) :
    ((∀ c ∈ e.content_pool, c.id ≠ content_id) →
      e.increase_engagement_score content_id = none ∧
      ∀ cm : Comment, e.add_comment_to_post content_id cm = none) ∧
    (∀ (l1 : List Post) (c : Post) (l2 : List Post),
      e.content_pool = l1 ++ c :: l2 →
      (∀ x ∈ l1, x.id ≠ content_id) →
      c.id = content_id →
      e.increase_engagement_score content_id
        = some { e with content_pool := l1 ++ Content.increase_engagement c :: l2 } ∧
      (Content.increase_engagement c).engagement_score = c.engagement_score + 1 ∧
      ∀ cm : Comment, e.add_comment_to_post content_id cm
        = some { e with content_pool := l1 ++ { c with comments := c.comments ++ [cm] } :: l2 }) := by
  constructor
  · intro habsent
    refine ⟨?_, fun cm => ?_⟩
    · unfold RecommendationEngine.increase_engagement_score
      rw [(bumpFirst_eq_none content_id e.content_pool).mpr habsent]
      rfl
    · unfold RecommendationEngine.add_comment_to_post
      rw [(pushCommentFirst_eq_none content_id cm e.content_pool).mpr habsent]
      rfl
  · intro l1 c l2 hpool h1 hc
    refine ⟨?_, rfl, fun cm => ?_⟩
    · unfold RecommendationEngine.increase_engagement_score
      rw [hpool, bumpFirst_split content_id l1 c l2 h1 hc]
      rfl
    · unfold RecommendationEngine.add_comment_to_post
      rw [hpool, pushCommentFirst_split content_id cm l1 c l2 h1 hc]
      rfl

/-- Witness for C3's amended theorem, at the one-post engine: id 7 is
absent (panic), id 1 is present (engagement bumped by exactly one). -/
theorem engine_mutators_panic_or_increment_witness :
    RecommendationEngine.increase_engagement_score sampleEngine 7 = none ∧
    RecommendationEngine.increase_engagement_score sampleEngine 1
      = some { sampleEngine with
                 content_pool := [Content.increase_engagement samplePost] } ∧
    (Content.increase_engagement samplePost).engagement_score
      = samplePost.engagement_score + 1 := by
  have habsent : ∀ c ∈ sampleEngine.content_pool, c.id ≠ 7 := by
    intro c hc
    simp only [sampleEngine, samplePost, Content.new, List.mem_singleton] at hc
    subst hc
    decide
  have hpresent := (engine_mutators_panic_or_increment sampleEngine 1).2
    [] samplePost [] rfl (by intro x hx; cases hx) rfl
  exact ⟨((engine_mutators_panic_or_increment sampleEngine 7).1 habsent).1,
    hpresent.1, hpresent.2.1⟩

/-- C5 counterexample — with the float `exp` instantiated as the identity
(which is injective, so distinct exponents give distinct recency values):
the recency term computed by the code for a one-hour-old post is
`-(1/20)` regardless of configuration; an engine configured with
`recency_decay_rate = 1` produces exactly the same content score as the
default engine (rate 0.05) on the same post, and the code's recency term
differs from the claim's `exp(-decay_rate * hours)` for that engine. -/
theorem recency_decay_config_counterexample :
    recency_score (fun x : ℚ => x) 0 3600 = -(1/20) ∧
    ({ RecommendationEngine.new with
        config := { RecommendationEngine.new.config with recency_decay_rate := 1 }
      } : RecommendationEngine).config.recency_decay_rate
      ≠ RecommendationEngine.new.config.recency_decay_rate ∧
    RecommendationEngine.calculate_content_score (fun x : ℚ => x) (fun x : ℚ => x)
        { RecommendationEngine.new with
            config := { RecommendationEngine.new.config with recency_decay_rate := 1 } }
        samplePost (InterestProfile.new 2) 3600
      = RecommendationEngine.calculate_content_score (fun x : ℚ => x) (fun x : ℚ => x)
          RecommendationEngine.new samplePost (InterestProfile.new 2) 3600 ∧
    recency_score (fun x : ℚ => x) 0 3600
      ≠ (fun x : ℚ => x)
          (-({ RecommendationEngine.new with
                config := { RecommendationEngine.new.config with recency_decay_rate := 1 }
             } : RecommendationEngine).config.recency_decay_rate
            * ((((3600 : Int) - 0 : Int) : ℚ) / 3600)) := by
  refine ⟨?_, ?_, rfl, ?_⟩
  · norm_num [recency_score]
  · norm_num [RecommendationEngine.new]
  · norm_num [recency_score, RecommendationEngine.new]

/-- C5 amended — the recency term of `calculate_content_score` is
`exp(-0.05 * hours_since(timestamp))` with the decay rate hard-coded to
0.05; the configured `recency_decay_rate` is never consulted, so changing
it (to any `r`) leaves the whole score unchanged.  (The default
configuration value happens to also be 0.05, which is why the hard-coding
is invisible under defaults.) -/
theorem recency_term_hardcoded (fexp fsqrt : ℚ → ℚ) (e : RecommendationEngine)
    (r : ℚ) (post : Post) (profile : InterestProfile) (current_time : Int) :
    recency_score fexp post.timestamp current_time
      = fexp (-(1/20) * (((current_time - post.timestamp : Int) : ℚ) / 3600)) ∧
    RecommendationEngine.calculate_content_score fexp fsqrt
        { e with config := { e.config with recency_decay_rate := r } }
        post profile current_time
      = RecommendationEngine.calculate_content_score fexp fsqrt e post profile current_time :=
  ⟨rfl, rfl⟩

/-- C8 — recommendation lists never include an excluded id and never
exceed the requested count: `get_post_recommendations` filters out every
viewed id before scoring and truncates to `count`;
`get_comment_recommendations`, whenever it returns a list at all, filters
out every already-seen comment id and truncates to its count.  Holds for
every float `exp`/`sqrt`, engine, profile, exclusion list, count and
clock value. -/
theorem recommendations_bounded_and_exclusive (fexp fsqrt : ℚ → ℚ)
    (e : RecommendationEngine) (interest_profile : InterestProfile)
    (viewed_posts : List Nat) (count : Nat) (current_time : Int)
    (post_id : Nat) (current_comment_ids : List Nat) (ccount : Nat) :
    (e.get_post_recommendations fexp fsqrt interest_profile viewed_posts count current_time).length
      ≤ count ∧
    (∀ pid ∈ e.get_post_recommendations fexp fsqrt interest_profile viewed_posts count current_time,
      pid ∉ viewed_posts) ∧
    (∀ l, e.get_comment_recommendations post_id current_comment_ids ccount = some l →
      l.length ≤ ccount ∧ ∀ cm ∈ l, cm.id ∉ current_comment_ids) := by
  refine ⟨?_, ?_, ?_⟩
  · simp [RecommendationEngine.get_post_recommendations, List.length_take]
  · intro pid hmem
    unfold RecommendationEngine.get_post_recommendations at hmem
    simp only [List.mem_map] at hmem
    obtain ⟨x, hx, hpid⟩ := hmem
    have hx2 : x ∈ rankSort (fun a b : Nat × ℚ => decide (b.2 < a.2))
        ((e.content_pool.filter (fun c => !viewed_posts.contains c.id)).map
          (fun c => (c.id, RecommendationEngine.calculate_content_score fexp fsqrt e c
            interest_profile current_time))) := List.take_subset _ _ hx
    rw [mem_rankSort] at hx2
    simp only [List.mem_map] at hx2
    obtain ⟨c, hc, hcx⟩ := hx2
    have hpred := List.of_mem_filter hc
    simp at hpred
    have hidpid : c.id = pid := by rw [← hpid, ← hcx]
    rwa [← hidpid]
  · intro l hl
    unfold RecommendationEngine.get_comment_recommendations at hl
    obtain ⟨post, hfind, hl⟩ := Option.map_eq_some'.mp hl
    subst hl
    refine ⟨by simp [List.length_take], ?_⟩
    intro cm hmem
    have hmem2 : cm ∈ rankSort (fun a b : Comment => decide (b.engagement_score < a.engagement_score))
        (post.comments.filter (fun c => !current_comment_ids.contains c.id)) :=
      List.take_subset _ _ hmem
    rw [mem_rankSort] at hmem2
    have hpred := List.of_mem_filter hmem2
    simpa using hpred

/-- Witness for C8 at the one-post engine: a request for two posts and
three comments, with empty exclusion lists and the identity standing in
for `exp`/`sqrt`. -/
theorem recommendations_bounded_and_exclusive_witness :
    (RecommendationEngine.get_post_recommendations (fun x : ℚ => x) (fun x : ℚ => x)
        sampleEngine (InterestProfile.new 2) [] 2 0).length ≤ 2 ∧
    ([] : List Comment).length ≤ 3 ∧
    ∀ cm ∈ ([] : List Comment), cm.id ∉ ([] : List Nat) := by
  have h := recommendations_bounded_and_exclusive (fun x : ℚ => x) (fun x : ℚ => x)
    sampleEngine (InterestProfile.new 2) [] 2 0 1 [] 3
  have hsome : RecommendationEngine.get_comment_recommendations sampleEngine 1 [] 3
      = some [] := rfl
  exact ⟨h.1, (h.2.2 [] hsome).1, (h.2.2 [] hsome).2⟩

/-- C9 — `get_comment_recommendations` returns `none` exactly when no
post in the pool carries the requested id, and returns `some []` (never
`none`) when the post exists but its comment list is empty after removing
the excluded ids: an empty candidate set is not reported as absence. -/
theorem comment_recommendations_none_iff (e : RecommendationEngine)
    (post_id : Nat) (current_comment_ids : List Nat) (count : Nat) :
    (e.get_comment_recommendations post_id current_comment_ids count = none ↔
      ∀ c ∈ e.content_pool, c.id ≠ post_id) ∧
    (∀ post, e.get_content_by_id post_id = some post →
      post.comments.filter (fun c => !current_comment_ids.contains c.id) = [] →
      e.get_comment_recommendations post_id current_comment_ids count = some []) := by
  constructor
  · unfold RecommendationEngine.get_comment_recommendations
      RecommendationEngine.get_content_by_id
    rw [Option.map_eq_none', List.find?_eq_none]
    simp
  · intro post hfind hempty
    unfold RecommendationEngine.get_comment_recommendations
    rw [hfind, Option.map_some']
    dsimp only
    rw [hempty]
    simp [rankSort]

/-- Witness for C9 at the one-post engine: id 9 is absent (`none` both
ways through the iff), while the present post 1 with no comments yields
`some []`. -/
theorem comment_recommendations_none_iff_witness :
    RecommendationEngine.get_comment_recommendations sampleEngine 9 [] 5 = none ∧
    RecommendationEngine.get_comment_recommendations sampleEngine 1 [] 5 = some [] := by
  have h9 := comment_recommendations_none_iff sampleEngine 9 [] 5
  have h1 := comment_recommendations_none_iff sampleEngine 1 [] 5
  refine ⟨h9.1.mpr ?_, h1.2 samplePost rfl rfl⟩
  intro c hc
  simp only [sampleEngine, samplePost, Content.new, List.mem_singleton] at hc
  subst hc
  decide

/-- C10 — the engagement lifecycle: a freshly created `Content` has
engagement 0; `increase_engagement` adds exactly 1.0; `n` bumps
give exactly `n`, so the score exceeds any bound (in particular it passes
1.0 after two bumps); every engine mutation leaves every pool entry's
engagement either unchanged or bumped by exactly 1 (never decreased or
renormalized); and `calculate_content_score` consumes the raw
`engagement_score` in its weighted sum (the source comment assumes it is
"already normalized 0.0-1.0" but nothing enforces that). -/
theorem engagement_score_lifecycle :
    (∀ (creator_id : Nat) (profile : InterestProfile) (id : Nat) (ts len : Int),
      (Content.new creator_id profile id ts len).engagement_score = 0) ∧
    (∀ c : Content,
      (Content.increase_engagement c).engagement_score = c.engagement_score + 1) ∧
    (∀ (c : Content) (n : Nat),
      (Content.increase_engagement^[n] c).engagement_score = c.engagement_score + n) ∧
    (∀ B : Nat,
      (Content.increase_engagement^[B + 1]
        (Content.new 0 (InterestProfile.new 0) 0 0 0)).engagement_score > (B : ℚ)) ∧
    (∀ (e : RecommendationEngine) (p : Post),
      (e.create_post p).content_pool = e.content_pool ++ [p]) ∧
    (∀ (e e' : RecommendationEngine) (content_id : Nat),
      e.increase_engagement_score content_id = some e' →
      List.Forall₂ (fun c c' : Post =>
        c'.engagement_score = c.engagement_score ∨
        c'.engagement_score = c.engagement_score + 1) e.content_pool e'.content_pool) ∧
    (∀ (e e' : RecommendationEngine) (post_id : Nat) (cm : Comment),
      e.add_comment_to_post post_id cm = some e' →
      List.Forall₂ (fun c c' : Post => c'.engagement_score = c.engagement_score)
        e.content_pool e'.content_pool) ∧
    (∀ (fexp fsqrt : ℚ → ℚ) (e : RecommendationEngine) (post : Post)
        (profile : InterestProfile) (t : Int),
      RecommendationEngine.calculate_content_score fexp fsqrt e post profile t
        = clamp (RecommendationEngine.calculate_vector_similarity fsqrt
              profile.vector_representation post.interest_profile.vector_representation
              * e.config.interest_weight
            + recency_score fexp post.timestamp t * e.config.recency_weight
            + post.engagement_score * e.config.engagement_weight) 0 1) := by
  have hiter : ∀ (c : Content) (n : Nat),
      (Content.increase_engagement^[n] c).engagement_score = c.engagement_score + n := by
    intro c n
    induction n with
    | zero => simp
    | succ k ih =>
      rw [Function.iterate_succ_apply', Content.increase_engagement]
      push_cast
      simp [ih]
      ring
  refine ⟨fun _ _ _ _ _ => rfl, fun c => rfl, hiter, ?_, fun e p => rfl, ?_, ?_,
    fun _ _ _ _ _ _ => rfl⟩
  · intro B
    rw [hiter]
    show (0 : ℚ) + ((B + 1 : Nat) : ℚ) > (B : ℚ)
    push_cast
    linarith
  · intro e e' content_id h
    unfold RecommendationEngine.increase_engagement_score at h
    obtain ⟨pool, hpool, rfl⟩ := Option.map_eq_some'.mp h
    exact bumpFirst_forall2 content_id e.content_pool pool hpool
  · intro e e' post_id cm h
    unfold RecommendationEngine.add_comment_to_post at h
    obtain ⟨pool, hpool, rfl⟩ := Option.map_eq_some'.mp h
    exact pushCommentFirst_forall2 post_id cm e.content_pool pool hpool

/-- Witness for C10 at the one-post engine: bumping post 1 relates the
old and new pools pointwise (unchanged-or-plus-one), and two bumps push
the fresh post's engagement to 2, strictly above 1. -/
theorem engagement_score_lifecycle_witness :
    List.Forall₂ (fun c c' : Post =>
        c'.engagement_score = c.engagement_score ∨
        c'.engagement_score = c.engagement_score + 1)
      sampleEngine.content_pool
      ({ sampleEngine with
          content_pool := [Content.increase_engagement samplePost] }).content_pool ∧
    (Content.increase_engagement^[2]
      (Content.new 0 (InterestProfile.new 0) 0 0 0)).engagement_score > (1 : ℚ) := by
  constructor
  · exact engagement_score_lifecycle.2.2.2.2.2.1 sampleEngine _ 1 rfl
  · exact engagement_score_lifecycle.2.2.2.1 1

/-- The thread-local RNG, embedded as a stream of draws: each primitive
call consumes one seed (0 once exhausted). -/
structure Rng where
  seeds : List Nat
deriving Repr, DecidableEq

def Rng.next : Rng → Nat × Rng
  | ⟨[]⟩ => (0, ⟨[]⟩)
  | ⟨s :: rest⟩ => (s, ⟨rest⟩)

/-- `rand`'s `gen_range(lo..=hi)`: an empty range panics (embedded as
`none`); otherwise some value in `[lo, hi]`. -/
def genRangeInclusive (lo hi : Nat) (r : Rng) : Option (Nat × Rng) :=
  if lo > hi then none
  else
    let (s, r2) := r.next
    some (lo + s % (hi + 1 - lo), r2)

/-- `random::<f32>()`: a value in `[0, 1)`. -/
def Rng.nextUnit (r : Rng) : ℚ × Rng :=
  let (s, r2) := r.next
  (((s % 1000 : Nat) : ℚ) / 1000, r2)

/-- The roulette walk of `select_content_tags` (lines 110-119 of
`interest.rs`): subtract weights until the running value drops to or
below zero; `none` when the walk finishes without a hit. -/
def rouletteDraw : ℚ → List (String × ℚ) → Option String
  | _, [] => none
  | rweight, (tag, w) :: rest =>
    if rweight - w ≤ 0 then some tag else rouletteDraw (rweight - w) rest

/-- The `while selected_tags.len() < num_tags && !remaining_tags.is_empty()`
loop of `select_content_tags` (lines 127-130): pick a uniform index into
the remaining tags, move that tag into the selection.  Inside the loop
the remaining list is nonempty, so this `gen_range(0..len)` cannot
panic. -/
def pickLoop (num_tags : Nat) (selected : List String)
    (remaining : List (String × ℚ)) (rng : Rng) : List String :=
  if selected.length < num_tags then
    match remaining with
    | [] => selected
    | x :: xs =>
      let s := (rng.next).1
      let rng2 := (rng.next).2
      let index := s % (x :: xs).length
      pickLoop num_tags (selected ++ [((x :: xs).getD index ("", 0)).1])
        ((x :: xs).eraseIdx index) rng2
  else selected
termination_by remaining.length
decreasing_by
  have hidx : (rng.next).1 % (x :: xs).length < (x :: xs).length :=
    Nat.mod_lt _ (by simp)
  simp only [List.length_eraseIdx, if_pos hidx]
  omega

/-- `InterestProfile::select_content_tags` from `src/models/interest.rs`
lines 95-133: sort the (tag, weight) pairs descending by weight, draw
`num_tags = gen_range(min_tags..=max_tags.min(len))` — note the lower
bound is *not* clamped to the available tag count, so the range is empty
(and `gen_range` panics, embedded as `none`) whenever
`min_tags > max_tags.min(len)`; then a roulette draw for the first tag
(with `interests[0]` as fallback) and uniform draws for the rest. -/
def InterestProfile.select_content_tags (p : InterestProfile)
    (min_tags max_tags : Nat) (rng : Rng) : Option (List String) :=
  let interests := rankSort (fun a b : String × ℚ => decide (b.2 < a.2))
    (p.interests.map (fun x => (x.1, x.2.weighted_interest)))
  match genRangeInclusive min_tags (min max_tags interests.length) rng with
  | none => none
  | some (num_tags, rng1) =>
    if interests.isEmpty then
      some (pickLoop num_tags [] interests rng1)
    else
      let (rweight, rng2) := rng1.nextUnit
      match rouletteDraw rweight interests with
      | some tag =>
        some (pickLoop num_tags [tag]
          (interests.filter (fun t => decide (t.1 ≠ tag))) rng2)
      | none =>
        some (pickLoop num_tags [(interests.headD ("", 0)).1] interests.tail rng2)

/-- C6 — on a profile with no interests, `select_content_tags(min, max)`
first computes `gen_range(min..=max.min(0))`; for every `min ≥ 1` that
range `min..=0` is empty and `gen_range` panics (`none`), for every
random stream — contradicting the claim that the call is total and
returns an empty tag set.  Only the `min = 0` case behaves as the claim
says, returning `[]`. -/
theorem select_content_tags_empty_profile_panics :
    (∀ (min_tags max_tags : Nat) (rng : Rng), 1 ≤ min_tags → min_tags ≤ max_tags →
      (InterestProfile.new 100).select_content_tags min_tags max_tags rng = none) ∧
    (∀ (max_tags : Nat) (rng : Rng),
      (InterestProfile.new 100).select_content_tags 0 max_tags rng = some []) := by
  constructor
  · intro min_tags max_tags rng h1 hle
    unfold InterestProfile.select_content_tags
    simp only [InterestProfile.new, List.map_nil]
    rw [show rankSort (fun a b : String × ℚ => decide (b.2 < a.2)) [] = [] from rfl]
    simp only [List.length_nil, Nat.min_zero, genRangeInclusive]
    have hpos : min_tags > 0 := h1
    rw [if_pos hpos]
  · intro max_tags rng
    unfold InterestProfile.select_content_tags
    simp only [InterestProfile.new, List.map_nil]
    rw [show rankSort (fun a b : String × ℚ => decide (b.2 < a.2)) [] = [] from rfl]
    simp only [List.length_nil, Nat.min_zero, genRangeInclusive]
    rw [if_neg (by omega : ¬ ((0 : Nat) > 0))]
    simp [Nat.mod_one, pickLoop]

/-- Witness for C6: with bounds (1, 1) the empty profile panics, and with
lower bound 0 it yields the empty tag set, on the empty random stream. -/
theorem select_content_tags_empty_profile_panics_witness :
    (1 ≤ 1 ∧ 1 ≤ 1 ∧
      (InterestProfile.new 100).select_content_tags 1 1 ⟨[]⟩ = none) ∧
    (InterestProfile.new 100).select_content_tags 0 3 ⟨[]⟩ = some [] :=
  ⟨⟨le_refl 1, le_refl 1,
      select_content_tags_empty_profile_panics.1 1 1 ⟨[]⟩ (le_refl 1) (le_refl 1)⟩,
    select_content_tags_empty_profile_panics.2 3 ⟨[]⟩⟩

/-- `IndividualCore` from `src/models/agents/individual/individual.rs`
lines 101-118. -/
structure IndividualCore where
  next_post_likelihood : ℚ
  attention_span : ℚ
  read_speed : ℚ
  viewed_content : List Nat
  session_length_ticks : Int
deriving Repr, DecidableEq

/-- `AgentCore` from `src/models/agents/agent.rs` lines 13-23 (the
typestate iteration: no embedded `state` field). -/
structure AgentCore where
  id : Nat
  content_creation_frequency : ℚ
  created_content : List Nat
  create_speed : ℚ
  interest_profile : InterestProfile
deriving Repr, DecidableEq

/-- State payload structs from `src/models/agents/states.rs`. -/
structure Offline where
deriving Repr, DecidableEq

structure Scrolling where
  recommended_post_ids : List Nat
deriving Repr, DecidableEq

structure ReadingPost where
  post_id : Nat
  creator_id : Nat
  ticks_spent : Int
  ticks_required : Int
  potential_interest_gain : ℚ
deriving Repr, DecidableEq

structure ReadingComments where
  post_id : Nat
  creator_id : Nat
  current_comment_ids : List Nat
  current_comment_index : Nat
  ticks_spent : Int
  ticks_required : Int
  potential_interest_gain : ℚ
deriving Repr, DecidableEq

structure CreatingPost where
  post_id : Nat
  ticks_spent : Int
  ticks_required : Int
deriving Repr, DecidableEq

structure CreatingComment where
  post_id : Nat
  comment_id : Nat
  ticks_spent : Int
  ticks_required : Int
deriving Repr, DecidableEq

/-- `IndividualAgent<S>` from
`src/models/agents/individual/individual.rs` lines 134-139. -/
structure IndividualAgent (S : Type) where
  individual_core : IndividualCore
  core : AgentCore
  state : S

/-- `IndividualWrapper` from the same file, lines 12-20: the closed sum
over the six typestates. -/
inductive IndividualWrapper where
  | offline (val : IndividualAgent Offline)
  | scrolling (val : IndividualAgent Scrolling)
  | readingPost (val : IndividualAgent ReadingPost)
  | readingComments (val : IndividualAgent ReadingComments)
  | creatingPost (val : IndividualAgent CreatingPost)
  | creatingComment (val : IndividualAgent CreatingComment)

/-- `IndividualAgent::<Scrolling>::new` (lines 167-187): fetch a
ten-post recommendation batch against the agent's profile and viewed
list (at the ambient clock value `now`). -/
def IndividualAgent.newScrolling (individual_core : IndividualCore)
    (core : AgentCore) (engine : RecommendationEngine)
    (fexp fsqrt : ℚ → ℚ) (now : Int) : IndividualAgent Scrolling :=
  { individual_core := individual_core
    core := core
    state :=
      ⟨engine.get_post_recommendations fexp fsqrt core.interest_profile
        individual_core.viewed_content 10 now⟩ }

/-- `IndividualWrapper::tick` from
`src/models/agents/individual/individual.rs` lines 22-28: the `Offline`
arm converts to `Scrolling` via the `From` impl; **every other arm is
`unimplemented!()`**, which panics — embedded as `none`. -/
def IndividualWrapper.tick (fexp fsqrt : ℚ → ℚ) (now : Int)
    (w : IndividualWrapper) (engine : RecommendationEngine) :
    Option IndividualWrapper :=
  match w with
  | .offline val =>
    some (.scrolling
      (IndividualAgent.newScrolling val.individual_core val.core engine fexp fsqrt now))
  | _ => none

/-- C2 — the default-policy tick is *not* total: `IndividualWrapper::tick`
handles only the `Offline` state and hits `unimplemented!()` (a panic,
embedded as `none`) in the five remaining states, for every engine
snapshot; yet `Scrolling` is reachable in one tick from `Offline`.  (The
non-typestate `Individual::tick` in `src/models/agents/individual.rs`
likewise aborts from `ReadingPost` on an engine with an empty content
pool: its continue branch runs `engine.get_content_by_id(post_id).unwrap()`
— line 260 — and `select_post_from_recommendations` carries the same
unwrap, flagged by its own `TODO: Unwrap bad` comment.) -/
theorem individual_wrapper_tick_unimplemented :
    (∀ (a : IndividualAgent Offline) (engine : RecommendationEngine)
        (fexp fsqrt : ℚ → ℚ) (now : Int),
      IndividualWrapper.tick fexp fsqrt now (.offline a) engine
        = some (.scrolling
            (IndividualAgent.newScrolling a.individual_core a.core engine fexp fsqrt now))) ∧
    (∀ (a : IndividualAgent Scrolling) (engine : RecommendationEngine)
        (fexp fsqrt : ℚ → ℚ) (now : Int),
      IndividualWrapper.tick fexp fsqrt now (.scrolling a) engine = none) ∧
    (∀ (a : IndividualAgent ReadingPost) (engine : RecommendationEngine)
        (fexp fsqrt : ℚ → ℚ) (now : Int),
      IndividualWrapper.tick fexp fsqrt now (.readingPost a) engine = none) ∧
    (∀ (a : IndividualAgent ReadingComments) (engine : RecommendationEngine)
        (fexp fsqrt : ℚ → ℚ) (now : Int),
      IndividualWrapper.tick fexp fsqrt now (.readingComments a) engine = none) ∧
    (∀ (a : IndividualAgent CreatingPost) (engine : RecommendationEngine)
        (fexp fsqrt : ℚ → ℚ) (now : Int),
      IndividualWrapper.tick fexp fsqrt now (.creatingPost a) engine = none) ∧
    (∀ (a : IndividualAgent CreatingComment) (engine : RecommendationEngine)
        (fexp fsqrt : ℚ → ℚ) (now : Int),
      IndividualWrapper.tick fexp fsqrt now (.creatingComment a) engine = none) :=
  ⟨fun _ _ _ _ _ => rfl, fun _ _ _ _ _ => rfl, fun _ _ _ _ _ => rfl,
    fun _ _ _ _ _ => rfl, fun _ _ _ _ _ => rfl, fun _ _ _ _ _ => rfl⟩

/-- `StartingTags` and `SimulationConfig` from
`src/models/simulation.rs` lines 6-28. -/
structure StartingTags where
  individual : Nat
  bot : Nat
  organisation : Nat
deriving Repr, DecidableEq

structure SimulationConfig where
  num_individuals : Nat
  num_bots : Nat
  num_organisations : Nat
  max_content_length : Int
  bot_creation_ticks : Int
  sample_tags : List String
  starting_tags : StartingTags
  base_content_length : Int
  diversity_weight : ℚ
  recency_weight : ℚ
  engagement_weight : ℚ
  tick_rate_ms : Int
  interest_decay_rate : ℚ
deriving Repr, DecidableEq

/-- The `Default` impl for `SimulationConfig` (lines 30-61). -/
def SimulationConfig.default : SimulationConfig :=
  { num_individuals := 3
    num_bots := 2
    num_organisations := 2
    max_content_length := 60
    bot_creation_ticks := 4
    sample_tags := ["politics", "technology", "science", "entertainment",
      "sports", "health", "education", "business"]
    starting_tags := ⟨3, 3, 3⟩
    base_content_length := 20
    diversity_weight := 1/5
    recency_weight := 1/5
    engagement_weight := 1/5
    tick_rate_ms := 100
    interest_decay_rate := 1/1000 }

/-- The per-agent loop body of `Simulation::tick`
(`src/models/simulation.rs` lines 130-136): every agent is advanced with
the *same* engine value — the loop holds `&self.engine` as an immutable
borrow for its whole extent, so the trait signature
`fn tick(&mut self, engine: &RecommendationEngine, ..) -> Option<Content>`
makes it impossible for an agent to write the pool mid-loop — and each
returned `Option<Content>` is pushed onto a local buffer.  An agent is
embedded as a state of arbitrary type `A` together with its `step`
function (the dynamic trait object). -/
def tickAgentsLoop {A : Type}
    (step : A → RecommendationEngine → SimulationConfig → A × Option Content)
    (engine : RecommendationEngine) (config : SimulationConfig) :
    List A → List A × List Content
  | [] => ([], [])
  | a :: rest =>
    let r := step a engine config
    let rec2 := tickAgentsLoop step engine config rest
    (r.1 :: rec2.1,
      match r.2 with
      | some c => c :: rec2.2
      | none => rec2.2)

/-- `Simulation::tick` (lines 123-140), specialized to the
pool-advancing branch (`elapsed >= tick_rate_ms`; otherwise the state is
untouched): advance every agent against the snapshot, then
`self.engine.content_pool.extend(new_content)` after the loop. -/
def Simulation.tick {A : Type}
    (step : A → RecommendationEngine → SimulationConfig → A × Option Content)
    (agents : List A) (engine : RecommendationEngine)
    (config : SimulationConfig) : List A × RecommendationEngine :=
  let res := tickAgentsLoop step engine config agents
  (res.1, { engine with content_pool := engine.content_pool ++ res.2 })

theorem tickAgentsLoop_fst {A : Type}
    (step : A → RecommendationEngine → SimulationConfig → A × Option Content)
    (engine : RecommendationEngine) (config : SimulationConfig)
    (agents : List A) :
    (tickAgentsLoop step engine config agents).1
      = agents.map (fun a => (step a engine config).1) := by
  induction agents with
  | nil => rfl
  | cons a rest ih => simp [tickAgentsLoop, ih]

theorem tickAgentsLoop_snd {A : Type}
    (step : A → RecommendationEngine → SimulationConfig → A × Option Content)
    (engine : RecommendationEngine) (config : SimulationConfig)
    (agents : List A) :
    (tickAgentsLoop step engine config agents).2
      = agents.filterMap (fun a => (step a engine config).2) := by
  induction agents with
  | nil => rfl
  | cons a rest ih =>
    simp only [tickAgentsLoop, List.filterMap_cons]
    cases h : (step a engine config).2 <;> simp [h, ih]

/-- C4 — read/compute/batch-write: in one driver tick, the list of new
agent states is exactly the map of each agent's `step` over the engine
snapshot taken at the start of the tick — every agent sees the identical
snapshot, and none can observe content another agent created in the same
tick, because the snapshot's pool is fixed for the whole loop — and the
shared pool is extended with the collected new content only once, after
every agent has been advanced. -/
theorem simulation_tick_snapshot {A : Type}
    (step : A → RecommendationEngine → SimulationConfig → A × Option Content)
    (agents : List A) (engine : RecommendationEngine)
    (config : SimulationConfig) :
    (Simulation.tick step agents engine config).1
      = agents.map (fun a => (step a engine config).1) ∧
    (Simulation.tick step agents engine config).2.content_pool
      = engine.content_pool
        ++ agents.filterMap (fun a => (step a engine config).2) := by
  constructor
  · rw [Simulation.tick]
    exact tickAgentsLoop_fst step engine config agents
  · rw [Simulation.tick]
    dsimp only
    rw [tickAgentsLoop_snd]
